import Mathlib

/-!
Verification of the Field Analytics & Yield Forecasting Engine of the
Agritech-AI repository.

The Python services `app/services/crop_yield_service.py` and
`app/services/precision_agriculture_service.py` are shallowly embedded below.
Conventions of the embedding:

* Python floats are modelled as rational numbers (`ℚ`); quantities that the
  source produces through `math.sqrt`/`np.std` (irrational in general) are
  modelled as real numbers (`ℝ`) via `Real.sqrt` applied to the rational
  variance.  Comparisons of the form `x > c * std` that drive control flow
  are encoded by the equivalent decidable comparison `c^2 * var < x^2`
  (both sides are nonnegative); the equivalence with the square-root form is
  proved in the lemma `mul_sqrt_lt_abs_iff` below and used to state the
  theorems in the original square-root form.
* Python dictionaries returned as records are modelled as structures; a dict
  key that is absent in some branch becomes an `Option` field.
* `datetime.utcnow()` is modelled by an explicit clock parameter `now : ℚ`
  (timestamps and dates are abstracted to rational day counts, `timedelta`
  addition becomes rational addition).
* Raising an exception is modelled by returning `none`.
* Python `round(x, 2)` is modelled by `roundTo2` (round to an integer number
  of hundredths).  Python rounds exact ties to even while `round` in Mathlib
  rounds them up; no property verified here touches an exact tie, and both
  functions are monotone and fix every 2-decimal value, which is all the
  proofs use.
-/

namespace Agritech

/-- Arithmetic mean of a list of rationals, `sum/len` (`np.mean`;
division by zero yields 0 in `ℚ`, the sources only apply this to
non-empty lists). -/
def mean (xs : List ℚ) : ℚ := xs.sum / xs.length

/-- Population variance (`np.var`, and the square of `np.std`):
mean of squared deviations from the mean. -/
def popVar (xs : List ℚ) : ℚ :=
  ((xs.map (fun x => (x - mean xs) ^ 2)).sum) / xs.length

/-- `min` of a Python list (defined here with default 0 on `[]`;
the sources only apply it to non-empty lists). -/
def listMin : List ℚ → ℚ
  | [] => 0
  | x :: xs => xs.foldl min x

/-- `max` of a Python list (defined here with default 0 on `[]`;
the sources only apply it to non-empty lists). -/
def listMax : List ℚ → ℚ
  | [] => 0
  | x :: xs => xs.foldl max x

/-- `np.percentile(xs, q)` with the default linear-interpolation method:
position `q/100 * (n-1)` in the sorted list, linearly interpolated between
the two neighbouring order statistics. -/
def npPercentile (xs : List ℚ) (q : ℚ) : ℚ :=
  let s := List.insertionSort (· ≤ ·) xs
  let n := s.length
  let pos := q / 100 * ((n : ℚ) - 1)
  let lo := (⌊pos⌋).toNat
  let frac := pos - (⌊pos⌋ : ℚ)
  if lo + 1 < n then s.getD lo 0 + frac * (s.getD (lo + 1) 0 - s.getD lo 0)
  else s.getD (n - 1) 0

/-- Python `round(x, 2)` (see the fidelity note in the file header). -/
def roundTo2 (x : ℚ) : ℚ := (round (x * 100) : ℤ) / 100

/-! ## Crop yield service (`crop_yield_service.py`) -/

/-- One entry of `CropYieldService.crop_parameters`. -/
structure CropParams where
  optimal_temp_min : ℚ
  optimal_temp_max : ℚ
  optimal_humidity_min : ℚ
  optimal_humidity_max : ℚ
  growing_days : ℕ
  water_requirement : ℚ
  base_yield_per_hectare : ℚ
  temp_sensitivity : ℚ
  humidity_sensitivity : ℚ
  soil_ph_min : ℚ
  soil_ph_max : ℚ
deriving DecidableEq

/-- Python `str.lower()` (character-wise lowercasing; defined through the
character list so that it is kernel-evaluable). -/
def lowerString (s : String) : String := String.mk (s.data.map Char.toLower)

/-- The `crop_parameters` reference table of `CropYieldService`. -/
def cropParameters : List (String × CropParams) :=
  [("wheat", ⟨15, 25, 60, 80, 120, 450, 3000, (8/10), (6/10), 6, (75/10)⟩),
   ("rice", ⟨20, 30, 70, 90, 150, 1200, 4000, (9/10), (8/10), (55/10), 7⟩),
   ("corn", ⟨18, 27, 65, 85, 100, 500, 5000, (7/10), (5/10), 6, 7⟩),
   ("soybeans", ⟨20, 30, 60, 80, 110, 450, 2500, (6/10), (7/10), 6, (75/10)⟩),
   ("tomatoes", ⟨18, 26, 65, 85, 80, 400, 40000, (9/10), (8/10), 6, 7⟩)]

/-- `_calculate_range_suitability`: 1.0 inside the optimal range, linear
decay clamped at 0 outside. -/
def rangeSuitability (value minOptimal maxOptimal : ℚ) : ℚ :=
  if minOptimal ≤ value ∧ value ≤ maxOptimal then 1
  else if value < minOptimal then max 0 (1 - (minOptimal - value) / minOptimal)
  else max 0 (1 - (value - maxOptimal) / maxOptimal)

/-- Result record of `_analyze_weather_factors`. -/
structure WeatherFactors where
  average_temperature : ℚ
  average_humidity : ℚ
  temperature_suitability : ℚ
  humidity_suitability : ℚ
  growing_days : ℕ
  weather_stress_days : ℚ
  rainfall_adequacy : ℚ
deriving DecidableEq

/-- `_analyze_weather_factors`.  The average temperature and humidity are the
values extracted from the weather-service snapshot (taken here as inputs). -/
def analyzeWeatherFactors (avgTemp avgHumidity : ℚ) (p : CropParams) :
    WeatherFactors :=
  let ts := rangeSuitability avgTemp p.optimal_temp_min p.optimal_temp_max
  let hs := rangeSuitability avgHumidity p.optimal_humidity_min p.optimal_humidity_max
  { average_temperature := avgTemp
    average_humidity := avgHumidity
    temperature_suitability := ts
    humidity_suitability := hs
    growing_days := p.growing_days
    weather_stress_days := max 0 (10 - ts * 10)
    rainfall_adequacy := (8/10) }

/-- Result record of `_analyze_soil_factors`. -/
structure SoilFactors where
  ph_level : ℚ
  ph_suitability : ℚ
  nitrogen_level : String
  phosphorus_level : String
  potassium_level : String
  moisture_content : ℚ
  soil_fertility_score : ℚ
  drainage_quality : ℚ
  organic_matter_content : ℚ
deriving DecidableEq

/-- The `nutrient_scores` mapping of `_analyze_soil_factors`
(default 0.8 for an unknown level string). -/
def nutrientScore (level : String) : ℚ :=
  (([("Low", ((6/10) : ℚ)), ("Medium", (8/10)), ("High", 1)].lookup level).getD (8/10))

/-- `_analyze_soil_factors` (soil snapshot values taken as inputs). -/
def analyzeSoilFactors (phLevel : ℚ) (nitrogen phosphorus potassium : String)
    (moisture : ℚ) (p : CropParams) : SoilFactors :=
  let ps := rangeSuitability phLevel p.soil_ph_min p.soil_ph_max
  let fert := (nutrientScore nitrogen + nutrientScore phosphorus +
    nutrientScore potassium) / 3
  { ph_level := phLevel
    ph_suitability := ps
    nitrogen_level := nitrogen
    phosphorus_level := phosphorus
    potassium_level := potassium
    moisture_content := moisture
    soil_fertility_score := fert
    drainage_quality := (8/10)
    organic_matter_content := (7/10) }

/-- `_calculate_weather_impact`: weighted combination clamped to `[0.3, 1.5]`. -/
def calculateWeatherImpact (wf : WeatherFactors) (p : CropParams) : ℚ :=
  let tempImpact := wf.temperature_suitability * p.temp_sensitivity
  let humidityImpact := wf.humidity_suitability * p.humidity_sensitivity
  let rainfallImpact := wf.rainfall_adequacy
  max (3/10) (min (15/10) (tempImpact * (4/10) + humidityImpact * (3/10) + rainfallImpact * (3/10)))

/-- `_calculate_soil_impact`: weighted combination clamped to `[0.4, 1.3]`. -/
def calculateSoilImpact (sf : SoilFactors) (p : CropParams) : ℚ :=
  let phImpact := sf.ph_suitability
  let fertilityImpact := sf.soil_fertility_score
  let drainageImpact := sf.drainage_quality
  max (4/10) (min (13/10) (phImpact * (3/10) + fertilityImpact * (5/10) + drainageImpact * (2/10)))

/-- `_calculate_confidence_score`: base 0.7, three +0.1 adjustments,
capped at 0.95. -/
def calculateConfidenceScore (wf : WeatherFactors) (sf : SoilFactors)
    (p : CropParams) : ℚ :=
  min (95/100) ((7/10) + (if (8/10) < wf.temperature_suitability then ((1/10) : ℚ) else 0)
    + (if (8/10) < sf.ph_suitability then ((1/10) : ℚ) else 0)
    + (if (8/10) < sf.soil_fertility_score then ((1/10) : ℚ) else 0))

/-- `_generate_yield_recommendations`. -/
def generateYieldRecommendations (wf : WeatherFactors) (sf : SoilFactors)
    (p : CropParams) : List String :=
  (if wf.temperature_suitability < (7/10) then
    ["Consider using shade nets or greenhouse cultivation to optimize temperature"]
   else []) ++
  (if wf.humidity_suitability < (7/10) then
    ["Implement proper irrigation and mulching to maintain optimal humidity"]
   else []) ++
  (if sf.ph_suitability < (7/10) then
    (if sf.ph_level < p.soil_ph_min then
      ["Apply lime to increase soil pH for better nutrient availability"]
     else ["Apply sulfur or organic matter to decrease soil pH"])
   else []) ++
  (if sf.soil_fertility_score < (8/10) then
    ["Apply balanced fertilizer to improve soil nutrient levels"]
   else []) ++
  ["Monitor crop regularly for pests and diseases",
   "Ensure adequate water supply during critical growth stages",
   "Consider crop rotation to maintain soil health"]

/-- Result record of `predict_crop_yield` (all numeric result fields,
rounded exactly as in the source). -/
structure YieldPrediction where
  crop_type : String
  field_size_hectares : ℚ
  planting_date : ℚ
  expected_harvest_date : ℚ
  predicted_yield_kg : ℚ
  predicted_yield_per_hectare : ℚ
  confidence_score : ℚ
  weather_impact_factor : ℚ
  soil_impact_factor : ℚ
  weather_factors : WeatherFactors
  soil_factors : SoilFactors
  recommendations : List String
  analysis_date : ℚ
deriving DecidableEq

/-- `predict_crop_yield`.  The crop type is lowercased and looked up in the
reference table; an unsupported crop raises `ValueError`, and a zero field
size raises `ZeroDivisionError` in the per-hectare division — both raises
are modelled as `none`.  The weather snapshot (average
temperature/humidity) and the soil snapshot (pH, nutrient level strings,
moisture) are taken as inputs. -/
def predictCropYield (now : ℚ) (cropType : String) (fieldSize : ℚ)
    (plantingDate : ℚ) (avgTemp avgHumidity : ℚ) (phLevel : ℚ)
    (nitrogen phosphorus potassium : String) (moisture : ℚ) :
    Option YieldPrediction :=
  match cropParameters.lookup (lowerString cropType) with
  | none => none
  | some cp =>
    let harvestDate := plantingDate + (cp.growing_days : ℚ)
    let wf := analyzeWeatherFactors avgTemp avgHumidity cp
    let sf := analyzeSoilFactors phLevel nitrogen phosphorus potassium moisture cp
    let baseYield := cp.base_yield_per_hectare * fieldSize
    let weatherImpact := calculateWeatherImpact wf cp
    let soilImpact := calculateSoilImpact sf cp
    let predictedYield := baseYield * weatherImpact * soilImpact
    -- the source raises ZeroDivisionError in
    -- round(predicted_yield / field_size_hectares, 2) when the field size
    -- is 0, so no result dictionary is produced there
    if fieldSize = 0 then none
    else some
      { crop_type := lowerString cropType
        field_size_hectares := fieldSize
        planting_date := plantingDate
        expected_harvest_date := harvestDate
        predicted_yield_kg := roundTo2 predictedYield
        predicted_yield_per_hectare := roundTo2 (predictedYield / fieldSize)
        confidence_score := roundTo2 (calculateConfidenceScore wf sf cp)
        weather_impact_factor := roundTo2 weatherImpact
        soil_impact_factor := roundTo2 soilImpact
        weather_factors := wf
        soil_factors := sf
        recommendations := generateYieldRecommendations wf sf cp
        analysis_date := now }

/-! ## Precision agriculture service (`precision_agriculture_service.py`):
field geometry and management zones -/

/-- One elevation sample (`elevation_data` entry, keys `location` and
`elevation`). -/
structure ElevationPoint where
  location : ℚ × ℚ
  elevation : ℚ
deriving DecidableEq

/-- One soil sample.  Only the fields used by the embedded functions are kept
(the zone generator only tests whether the collection is non-empty). -/
structure SoilSample where
  location : ℚ × ℚ
  ph : ℚ
deriving DecidableEq

/-- A management zone (`elevation_range` is absent from the `uniform` zone
dictionary, hence the `Option`). -/
structure ManagementZone where
  zone_id : String
  name : String
  elevation_range : Option (ℚ × ℚ)
  characteristics : List String
  management_recommendations : List String
deriving DecidableEq

/-- `_generate_management_zones`: four fixed elevation-quartile zones when
both the elevation collection and the soil-sample collection are non-empty,
one `uniform` zone otherwise.  The boundary list is a parameter of the
source function but is not read by it. -/
def generateManagementZones (boundaries : List (ℚ × ℚ))
    (elevationData : List ElevationPoint) (soilSamples : List SoilSample) :
    List ManagementZone :=
  if ¬elevationData.isEmpty ∧ ¬soilSamples.isEmpty then
    let elevations := elevationData.map (·.elevation)
    if ¬elevations.isEmpty then
      let q1 := npPercentile elevations 25
      let q2 := npPercentile elevations 50
      let q3 := npPercentile elevations 75
      [{ zone_id := "low_elevation"
         name := "Low Elevation Zone"
         elevation_range := some (listMin elevations, q1)
         characteristics := ["good_drainage", "lower_water_retention"]
         management_recommendations := ["increased_irrigation", "nitrogen_management"] },
       { zone_id := "medium_low_elevation"
         name := "Medium-Low Elevation Zone"
         elevation_range := some (q1, q2)
         characteristics := ["moderate_drainage", "medium_water_retention"]
         management_recommendations := ["balanced_fertilization", "standard_practices"] },
       { zone_id := "medium_high_elevation"
         name := "Medium-High Elevation Zone"
         elevation_range := some (q2, q3)
         characteristics := ["moderate_drainage", "good_water_retention"]
         management_recommendations := ["phosphorus_focus", "erosion_control"] },
       { zone_id := "high_elevation"
         name := "High Elevation Zone"
         elevation_range := some (q3, listMax elevations)
         characteristics := ["poor_drainage", "high_water_retention"]
         management_recommendations := ["drainage_improvement", "reduced_irrigation"] }]
    else []
  else
    [{ zone_id := "uniform"
       name := "Uniform Management Zone"
       elevation_range := none
       characteristics := ["standard_conditions"]
       management_recommendations := ["standard_practices"] }]

/-! ## Variable-rate application planning -/

/-- One entry of the rate map produced by `_generate_application_rates`. -/
structure RateEntry where
  zone_id : String
  application_rate : ℚ
  unit : String
  justification : String
deriving DecidableEq

/-- The `base_rates` table of `_generate_application_rates`. -/
def baseRates : List (String × List (String × ℚ)) :=
  [("fertilizer", [("corn", 150), ("soybean", 100), ("wheat", 120)]),
   ("pesticide", [("corn", (25/10)), ("soybean", 2), ("wheat", (22/10))]),
   ("seed", [("corn", 75000), ("soybean", 350000), ("wheat", 4500000)]),
   ("water", [("corn", 25), ("soybean", 20), ("wheat", 22)])]

/-- The base-rate lookup `base_rates.get(app_type, {}).get(crop, 100)`. -/
def baseRateFor (appType crop : String) : ℚ :=
  (((baseRates.lookup appType).getD []).lookup crop).getD 100

/-- `_get_application_unit`. -/
def getApplicationUnit (appType : String) : String :=
  (([("fertilizer", "kg/ha"), ("pesticide", "L/ha"), ("seed", "seeds/ha"),
     ("water", "mm")].lookup appType)).getD "units/ha"

/-- `_get_rate_justification`. -/
def getRateJustification (zone : ManagementZone) (rateModifier : ℚ) : String :=
  if 1 < rateModifier then
    "Increased rate due to " ++ String.intercalate ", " zone.characteristics
  else if rateModifier < 1 then
    "Reduced rate due to " ++ String.intercalate ", " zone.characteristics
  else "Standard rate for zone conditions"

/-- The per-zone rate modifier computed inside `_generate_application_rates`:
starting from 1.0, `poor_drainage` multiplies by 0.8, and — only via the
`elif`, i.e. only when `poor_drainage` is absent — `good_drainage`
multiplies by 1.1. -/
def rateModifier (characteristics : List String) : ℚ :=
  if "poor_drainage" ∈ characteristics then 1 * (8/10)
  else if "good_drainage" ∈ characteristics then 1 * (11/10)
  else 1

/-- `_generate_application_rates`.  The soil-test list is a parameter of the
source function but is not read by it. -/
def generateApplicationRates (fieldZones : List ManagementZone)
    (appType crop : String) (soilTests : List SoilSample) : List RateEntry :=
  fieldZones.map (fun zone =>
    { zone_id := zone.zone_id
      application_rate := baseRateFor appType crop * rateModifier zone.characteristics
      unit := getApplicationUnit appType
      justification := getRateJustification zone (rateModifier zone.characteristics) })

/-- Modelled from the spec (for comparison with the source behaviour): the
claimed multiplicative composition of characteristic modifiers, under which
a zone with both `poor_drainage` and `good_drainage` would receive
`0.8 * 1.1`. -/
def specApplicationModifier (characteristics : List String) : ℚ :=
  (if "poor_drainage" ∈ characteristics then ((8/10) : ℚ) else 1) *
  (if "good_drainage" ∈ characteristics then ((11/10) : ℚ) else 1)

/-! ## Monitoring-data analysis -/

/-- One monitoring data point (keys `location` and `value`; the `.get`
defaults of the source apply to absent keys, which the typed model rules
out). -/
structure DataPoint where
  location : ℚ × ℚ
  value : ℚ
deriving DecidableEq

/-- One anomaly record of `_detect_field_anomalies`.  The
`expected_range` bounds are `mean ± std` and are real numbers. -/
structure Anomaly where
  location : ℚ × ℚ
  value : ℚ
  expected_range : ℝ × ℝ
  severity : String
  type : String

/-- `_detect_field_anomalies`.  The source flags a point when
`abs(value - mean) > 2 * std` and marks it high severity when
`abs(value - mean) > 3 * std`; both tests are encoded by the equivalent
squared comparisons `4 * var < (value - mean)^2` and
`9 * var < (value - mean)^2` (see `mul_sqrt_lt_abs_iff`).  The data-type
argument of the source function is not read by it. -/
noncomputable def detectFieldAnomalies (dataPoints : List DataPoint)
    (dataType : String) : List Anomaly :=
  if dataPoints.isEmpty then []
  else
    let vals := dataPoints.map (·.value)
    let m := mean vals
    let v := popVar vals
    dataPoints.filterMap (fun p =>
      if 4 * v < (p.value - m) ^ 2 then
        some { location := p.location
               value := p.value
               expected_range := ((m : ℝ) - Real.sqrt (v : ℝ), (m : ℝ) + Real.sqrt (v : ℝ))
               severity := if 9 * v < (p.value - m) ^ 2 then "high" else "medium"
               type := "outlier" }
      else none)

/-- One stress-area record of `_identify_stress_areas`. -/
structure StressArea where
  location : ℚ × ℚ
  ndvi_value : ℚ
  stress_level : String
  possible_causes : List String
deriving DecidableEq

/-- Result of `_assess_growth_uniformity` (a `no_data` status dict on an
empty input, otherwise the uniformity record; the score and the coefficient
of variation involve `np.std` and are real numbers). -/
inductive UniformityResult where
  | noData
  | assessed (uniformity_score : ℝ) (coefficient_of_variation : ℝ)
      (assessment : String) (recommendations : List String)

/-- `_get_uniformity_recommendations`. -/
noncomputable def getUniformityRecommendations (uniformityScore : ℝ) :
    List String :=
  if 80 < uniformityScore then
    ["Maintain current management practices", "Continue monitoring"]
  else if 60 < uniformityScore then
    ["Minor adjustments to management zones", "Monitor variable areas closely"]
  else if 40 < uniformityScore then
    ["Implement variable rate applications", "Investigate causes of variability"]
  else
    ["Major management zone revision needed",
     "Detailed soil and plant tissue testing", "Consider field renovation"]

/-- `_assess_growth_uniformity`: coefficient of variation of the NDVI values
(0 when the mean is not positive), uniformity score `max(0, 100 - cv*100)`,
with a four-tier qualitative label. -/
noncomputable def assessGrowthUniformity (ndviValues : List ℚ) :
    UniformityResult :=
  if ndviValues.isEmpty then .noData
  else
    let stdDev : ℝ := Real.sqrt ((popVar ndviValues : ℚ) : ℝ)
    let cv : ℝ := if (0 : ℚ) < mean ndviValues then stdDev / ((mean ndviValues : ℚ) : ℝ) else 0
    let score : ℝ := max 0 (100 - cv * 100)
    .assessed score cv
      (if 80 < score then "excellent"
       else if 60 < score then "good"
       else if 40 < score then "fair"
       else "poor")
      (getUniformityRecommendations score)

/-- `_calculate_health_score`: `min(100, mean * 125)`, 0 on empty input. -/
def calculateHealthScore (ndviValues : List ℚ) : ℚ :=
  if ndviValues.isEmpty then 0 else min 100 (mean ndviValues * 125)

/-- `_identify_stress_areas`: points with NDVI below the `poor` threshold
0.3, severe below 0.2. -/
def identifyStressAreas (dataPoints : List DataPoint) : List StressArea :=
  dataPoints.filterMap (fun p =>
    if p.value < ((3 : ℚ)/10) then
      some { location := p.location
             ndvi_value := p.value
             stress_level := if p.value < ((2 : ℚ)/10) then "severe" else "moderate"
             possible_causes := ["drought", "disease", "nutrient_deficiency", "pest_damage"] }
    else none)

/-- Result record of `_analyze_ndvi_data` on non-empty input. -/
structure NdviAnalysis where
  average_ndvi : ℚ
  dist_poor : ℕ
  dist_fair : ℕ
  dist_good : ℕ
  dist_excellent : ℕ
  field_health_score : ℚ
  stress_indicators : List StressArea
  growth_uniformity : UniformityResult

/-- Result record of `_analyze_soil_moisture_data` on non-empty input. -/
structure SoilMoistureAnalysis where
  average_moisture : ℚ
  moisture_variability : ℚ
  dry_areas : ℕ
  optimal_areas : ℕ
  wet_areas : ℕ
  irrigation_recommendations : List String
deriving DecidableEq

/-- Result record of `_analyze_temperature_data` on non-empty input. -/
structure TemperatureAnalysis where
  average_temperature : ℚ
  temperature_range : ℚ
  heat_stress_areas : ℕ
  cold_stress_areas : ℕ
  optimal_areas : ℕ
  thermal_recommendations : List String
deriving DecidableEq

/-- Result record of `_analyze_growth_stage_data` on non-empty input
(`growth_uniformity` is `np.std`, a real number). -/
structure GrowthStageAnalysis where
  average_growth_stage : ℚ
  growth_uniformity : ℝ
  advanced_areas : ℕ
  delayed_areas : ℕ
  management_recommendations : List String

/-- Result record of `_analyze_generic_data` on non-empty input
(`standard_deviation` is `np.std`, a real number). -/
structure GenericAnalysis where
  average_value : ℚ
  min_value : ℚ
  max_value : ℚ
  standard_deviation : ℝ
  data_quality : String

/-- The per-type analysis dict assigned to `analysis` in
`analyze_field_monitoring_data` (a `no_data` status dict on empty input). -/
inductive AnalysisResult where
  | noData
  | ndvi (a : NdviAnalysis)
  | soilMoisture (a : SoilMoistureAnalysis)
  | temperature (a : TemperatureAnalysis)
  | growthStage (a : GrowthStageAnalysis)
  | generic (a : GenericAnalysis)

/-- `_analyze_ndvi_data`: bucket counts against the fixed NDVI thresholds
(poor 0.3, fair 0.5, good 0.7), health score, stress areas, uniformity. -/
noncomputable def analyzeNdviData (dataPoints : List DataPoint)
    (boundaries : List (ℚ × ℚ)) : AnalysisResult :=
  if dataPoints.isEmpty then .noData
  else
    let vals := dataPoints.map (·.value)
    .ndvi
      { average_ndvi := mean vals
        dist_poor := vals.countP (fun v => v < (3/10))
        dist_fair := vals.countP (fun v => (3/10) ≤ v ∧ v < (5/10))
        dist_good := vals.countP (fun v => (5/10) ≤ v ∧ v < (7/10))
        dist_excellent := vals.countP (fun v => (7/10) ≤ v)
        field_health_score := calculateHealthScore vals
        stress_indicators := identifyStressAreas dataPoints
        growth_uniformity := assessGrowthUniformity vals }

/-- `_generate_irrigation_recommendations`. -/
def generateIrrigationRecommendations (moistureValues : List ℚ) :
    List String :=
  (if mean moistureValues < 20 then
    ["Immediate irrigation required", "Increase irrigation frequency"]
   else if mean moistureValues < 40 then
    ["Schedule irrigation within 2-3 days"]
   else if 80 < mean moistureValues then
    ["Reduce irrigation frequency", "Check drainage systems"]
   else []) ++
  (if (moistureValues.length : ℚ) * (3/10) < (moistureValues.countP (fun v => v < 20) : ℚ) then
    ["Consider variable rate irrigation"]
   else [])

/-- `_analyze_soil_moisture_data`. -/
def analyzeSoilMoistureData (dataPoints : List DataPoint)
    (boundaries : List (ℚ × ℚ)) : AnalysisResult :=
  if dataPoints.isEmpty then .noData
  else
    let vals := dataPoints.map (·.value)
    .soilMoisture
      { average_moisture := mean vals
        moisture_variability := popVar vals
        dry_areas := vals.countP (fun v => v < 20)
        optimal_areas := vals.countP (fun v => 20 ≤ v ∧ v ≤ 80)
        wet_areas := vals.countP (fun v => 80 < v)
        irrigation_recommendations := generateIrrigationRecommendations vals }

/-- `_generate_thermal_recommendations`. -/
def generateThermalRecommendations (tempValues : List ℚ) : List String :=
  (if 30 < mean tempValues then
    ["Monitor for heat stress symptoms", "Ensure adequate irrigation"]
   else []) ++
  (if 0 < tempValues.countP (fun v => 35 < v) then
    ["Implement heat stress mitigation in hot spots",
     "Consider shade structures or cooling systems"]
   else []) ++
  (if 0 < tempValues.countP (fun v => v < 10) then
    ["Monitor for cold stress in low temperature areas",
     "Consider frost protection measures"]
   else [])

/-- `_analyze_temperature_data`. -/
def analyzeTemperatureData (dataPoints : List DataPoint)
    (boundaries : List (ℚ × ℚ)) : AnalysisResult :=
  if dataPoints.isEmpty then .noData
  else
    let vals := dataPoints.map (·.value)
    .temperature
      { average_temperature := mean vals
        temperature_range := listMax vals - listMin vals
        heat_stress_areas := vals.countP (fun v => 35 < v)
        cold_stress_areas := vals.countP (fun v => v < 10)
        optimal_areas := vals.countP (fun v => 15 ≤ v ∧ v ≤ 30)
        thermal_recommendations := generateThermalRecommendations vals }

/-- `_generate_growth_stage_recommendations`.  The comparisons with the
standard deviation (`uniformity > 1.0`, `s > avg + std`, `s < avg - std`)
are encoded by equivalent squared comparisons on the variance. -/
def generateGrowthStageRecommendations (stages : List ℚ) : List String :=
  let avg := mean stages
  let v := popVar stages
  (if 1 < v then
    ["Address growth variability with targeted management",
     "Investigate causes of uneven development"]
   else []) ++
  (if 0 < stages.countP (fun s => avg < s ∧ v < (s - avg) ^ 2) then
    ["Monitor advanced areas for early maturity"]
   else []) ++
  (if 0 < stages.countP (fun s => s < avg ∧ v < (avg - s) ^ 2) then
    ["Provide additional support to delayed areas",
     "Consider supplemental fertilization in slow-growing zones"]
   else [])

/-- `_analyze_growth_stage_data`.  `advanced_areas` counts values above
`mean + std` and `delayed_areas` values below `mean - std`, encoded by the
equivalent squared comparisons. -/
noncomputable def analyzeGrowthStageData (dataPoints : List DataPoint)
    (boundaries : List (ℚ × ℚ)) : AnalysisResult :=
  if dataPoints.isEmpty then .noData
  else
    let vals := dataPoints.map (·.value)
    let avg := mean vals
    let v := popVar vals
    .growthStage
      { average_growth_stage := avg
        growth_uniformity := Real.sqrt ((v : ℚ) : ℝ)
        advanced_areas := vals.countP (fun s => avg < s ∧ v < (s - avg) ^ 2)
        delayed_areas := vals.countP (fun s => s < avg ∧ v < (avg - s) ^ 2)
        management_recommendations := generateGrowthStageRecommendations vals }

/-- `_analyze_generic_data`. -/
noncomputable def analyzeGenericData (dataPoints : List DataPoint)
    (boundaries : List (ℚ × ℚ)) : AnalysisResult :=
  if dataPoints.isEmpty then .noData
  else
    let vals := dataPoints.map (·.value)
    .generic
      { average_value := mean vals
        min_value := listMin vals
        max_value := listMax vals
        standard_deviation := Real.sqrt ((popVar vals : ℚ) : ℝ)
        data_quality := if 10 < vals.length then "good" else "limited" }

/-- Result record of `_calculate_field_statistics` on non-empty input
(the source returns an empty dict on empty input, modelled as `none` by the
caller-facing `calculateFieldStatistics`). -/
structure FieldStats where
  count : ℕ
  statMean : ℚ
  median : ℚ
  std_dev : ℝ
  statMin : ℚ
  statMax : ℚ
  range : ℚ
  coefficient_of_variation : ℝ

/-- `np.median`, which coincides with the 50th linear-interpolation
percentile. -/
def npMedian (xs : List ℚ) : ℚ := npPercentile xs 50

/-- `_calculate_field_statistics`. -/
noncomputable def calculateFieldStatistics (dataPoints : List DataPoint) :
    Option FieldStats :=
  if dataPoints.isEmpty then none
  else
    let vals := dataPoints.map (·.value)
    some
      { count := vals.length
        statMean := mean vals
        median := npMedian vals
        std_dev := Real.sqrt ((popVar vals : ℚ) : ℝ)
        statMin := listMin vals
        statMax := listMax vals
        range := listMax vals - listMin vals
        coefficient_of_variation :=
          if mean vals ≠ 0 then Real.sqrt ((popVar vals : ℚ) : ℝ) / ((mean vals : ℚ) : ℝ)
          else 0 }

/-- One gradient entry of `_identify_spatial_patterns` (always emitted with
`detected: True`). -/
structure GradientPattern where
  direction : String
  magnitude : ℚ
deriving DecidableEq

/-- Result of `_identify_spatial_patterns`: an insufficient-data status for
fewer than 4 points, otherwise up to two gradient entries. -/
inductive SpatialPatterns where
  | insufficientData
  | patterns (northSouth : Option GradientPattern) (eastWest : Option GradientPattern)
deriving DecidableEq

/-- `_identify_spatial_patterns`.  Points are split by latitude
(respectively longitude) against the mean latitude (longitude); a gradient
is reported when both groups are non-empty and the absolute difference of
their mean values exceeds the overall standard deviation — the latter test
encoded by the equivalent squared comparison against the variance. -/
def identifySpatialPatterns (dataPoints : List DataPoint) : SpatialPatterns :=
  if dataPoints.length < 4 then .insufficientData
  else
    let vals := dataPoints.map (·.value)
    let v := popVar vals
    let meanLat := mean (dataPoints.map (·.location.1))
    let meanLng := mean (dataPoints.map (·.location.2))
    let northVals := (dataPoints.filter (fun p => meanLat < p.location.1)).map (·.value)
    let southVals := (dataPoints.filter (fun p => p.location.1 ≤ meanLat)).map (·.value)
    let eastVals := (dataPoints.filter (fun p => meanLng < p.location.2)).map (·.value)
    let westVals := (dataPoints.filter (fun p => p.location.2 ≤ meanLng)).map (·.value)
    let nsDiff := |mean northVals - mean southVals|
    let ewDiff := |mean eastVals - mean westVals|
    .patterns
      (if ¬northVals.isEmpty ∧ ¬southVals.isEmpty ∧ v < nsDiff ^ 2 then
        some { direction := if mean southVals < mean northVals then "north_higher" else "south_higher"
               magnitude := nsDiff }
       else none)
      (if ¬eastVals.isEmpty ∧ ¬westVals.isEmpty ∧ v < ewDiff ^ 2 then
        some { direction := if mean westVals < mean eastVals then "east_higher" else "west_higher"
               magnitude := ewDiff }
       else none)

/-- The `analysis.get("field_health_score", 0)` read of
`_generate_monitoring_recommendations`. -/
def fieldHealthScoreOf : AnalysisResult → ℚ
  | .ndvi a => a.field_health_score
  | _ => 0

/-- The `analysis.get("dry_areas", 0)` read. -/
def dryAreasOf : AnalysisResult → ℕ
  | .soilMoisture a => a.dry_areas
  | _ => 0

/-- The `analysis.get("wet_areas", 0)` read. -/
def wetAreasOf : AnalysisResult → ℕ
  | .soilMoisture a => a.wet_areas
  | _ => 0

/-- The `analysis.get("heat_stress_areas", 0)` read. -/
def heatStressAreasOf : AnalysisResult → ℕ
  | .temperature a => a.heat_stress_areas
  | _ => 0

/-- `_generate_monitoring_recommendations`. -/
def generateMonitoringRecommendations (analysis : AnalysisResult)
    (anomalies : List Anomaly) (dataType : String) : List String :=
  (if dataType = "ndvi" then
    (if fieldHealthScoreOf analysis < 70 then
      ["Field health below optimal - investigate stress factors"]
     else []) ++
    (if 0 < anomalies.length then
      ["Address anomalous areas with targeted interventions"]
     else [])
   else if dataType = "soil_moisture" then
    (if 0 < dryAreasOf analysis then ["Increase irrigation in dry areas"] else []) ++
    (if 0 < wetAreasOf analysis then ["Improve drainage in waterlogged areas"] else [])
   else if dataType = "temperature" then
    (if 0 < heatStressAreasOf analysis then
      ["Implement heat stress mitigation strategies"]
     else [])
   else []) ++
  ["Continue regular monitoring for trend analysis",
   "Document any management interventions",
   "Compare with historical data for context"]

/-- The monitoring-cadence table of `_suggest_next_monitoring_date`
(default 7 days). -/
def monitoringInterval (dataType : String) : ℚ :=
  (([("ndvi", (14 : ℚ)), ("soil_moisture", 7), ("temperature", 3),
     ("growth_stage", 10)].lookup dataType)).getD 7

/-- `_suggest_next_monitoring_date`: the current time plus the fixed
per-type cadence. -/
def suggestNextMonitoringDate (now : ℚ) (dataType : String) : ℚ :=
  now + monitoringInterval dataType

/-- The input dictionary of `analyze_field_monitoring_data` (the `date` key
may be absent, in which case the source substitutes the current time). -/
structure MonitoringInput where
  type : String
  data_points : List DataPoint
  field_boundaries : List (ℚ × ℚ)
  date : Option ℚ

/-- The `monitoring_analysis` result record of
`analyze_field_monitoring_data`. -/
structure MonitoringAnalysis where
  type : String
  measurement_date : ℚ
  analysis_results : AnalysisResult
  anomalies_detected : List Anomaly
  field_statistics : Option FieldStats
  spatial_patterns : SpatialPatterns
  recommendations : List String
  next_monitoring_date : ℚ
  analyzed_at : ℚ

/-- `analyze_field_monitoring_data`, with `datetime.utcnow()` made an
explicit clock parameter `now`. -/
noncomputable def analyzeFieldMonitoringData (now : ℚ)
    (monitoringData : MonitoringInput) : MonitoringAnalysis :=
  let dataType := monitoringData.type
  let dataPoints := monitoringData.data_points
  let boundaries := monitoringData.field_boundaries
  let analysis :=
    if dataType = "ndvi" then analyzeNdviData dataPoints boundaries
    else if dataType = "soil_moisture" then analyzeSoilMoistureData dataPoints boundaries
    else if dataType = "temperature" then analyzeTemperatureData dataPoints boundaries
    else if dataType = "growth_stage" then analyzeGrowthStageData dataPoints boundaries
    else analyzeGenericData dataPoints boundaries
  let anomalies := detectFieldAnomalies dataPoints dataType
  { type := dataType
    measurement_date := monitoringData.date.getD now
    analysis_results := analysis
    anomalies_detected := anomalies
    field_statistics := calculateFieldStatistics dataPoints
    spatial_patterns := identifySpatialPatterns dataPoints
    recommendations := generateMonitoringRecommendations analysis anomalies dataType
    next_monitoring_date := suggestNextMonitoringDate now dataType
    analyzed_at := now }

/-! ## Zone-level yield variability map -/

/-- The fields of a zone yield prediction read by
`_create_yield_variability_map` (`zone_id`, `predicted_yield_kg_ha`). -/
structure ZoneYieldPrediction where
  zone_id : String
  predicted_yield_kg_ha : ℚ
deriving DecidableEq

/-- One entry of the variability map (`deviation_from_mean` is the z-score
`(y - mean)/std`, a real number; it is 0 when the standard deviation is 0). -/
structure VariabilityZone where
  zone_id : String
  yield_category : String
  deviation_from_mean : ℝ
  predicted_yield : ℚ

/-- The variability-map record (`field_std` and the coefficient involve
`np.std` and are real numbers). -/
structure VariabilityMap where
  zones : List VariabilityZone
  field_mean : ℚ
  field_std : ℝ
  variability_coefficient : ℝ

/-- The category chain of `_create_yield_variability_map` applied to the
deviation `d = y - mean` with variance `v`: the source compares the z-score
`d/std` with 1, 0 and -1 (taking the z-score to be 0 when `std = 0`);
the comparisons are encoded by equivalent decidable comparisons on `d` and
`v` (see `yieldCategory` bridging lemmas below). -/
def yieldCategory (d v : ℚ) : String :=
  if 0 < v then
    if 0 < d ∧ v < d ^ 2 then "high_yield"
    else if 0 < d then "above_average"
    else if 0 ≤ d ∨ d ^ 2 < v then "below_average"
    else "low_yield"
  else "below_average"

/-- Modelled from the spec (for comparison with the source behaviour): the
claimed classification by z-score into high_yield (z > 1),
above_average (0 < z ≤ 1), below_average (-1 ≤ z < 0), low_yield (z < -1);
no category of the claim covers z = 0. -/
noncomputable def specYieldCategory (z : ℝ) : String :=
  if 1 < z then "high_yield"
  else if 0 < z ∧ z ≤ 1 then "above_average"
  else if -1 ≤ z ∧ z < 0 then "below_average"
  else if z < -1 then "low_yield"
  else "unclassified"

/-- `_create_yield_variability_map` (the source returns an empty dict on an
empty prediction list, modelled as `none`). -/
noncomputable def createYieldVariabilityMap
    (yieldPredictions : List ZoneYieldPrediction) : Option VariabilityMap :=
  if yieldPredictions.isEmpty then none
  else
    let yields := yieldPredictions.map (·.predicted_yield_kg_ha)
    let meanYield := mean yields
    let stdYield : ℝ := Real.sqrt ((popVar yields : ℚ) : ℝ)
    some
      { zones := yieldPredictions.map (fun p =>
          { zone_id := p.zone_id
            yield_category := yieldCategory (p.predicted_yield_kg_ha - meanYield) (popVar yields)
            deviation_from_mean :=
              if 0 < popVar yields then
                ((p.predicted_yield_kg_ha - meanYield : ℚ) : ℝ) / stdYield
              else 0
            predicted_yield := p.predicted_yield_kg_ha })
        field_mean := meanYield
        field_std := stdYield
        variability_coefficient :=
          if 0 < meanYield then stdYield / ((meanYield : ℚ) : ℝ) else 0 }

/-! ## Helper lemmas -/

/-- `roundTo2` is monotone. -/
theorem roundTo2_mono {x y : ℚ} (h : x ≤ y) : roundTo2 x ≤ roundTo2 y := by
  unfold roundTo2
  have hr : round (x * 100) ≤ round (y * 100) := by
    rw [round_eq, round_eq]
    exact Int.floor_mono (by linarith)
  have hc : ((round (x * 100) : ℤ) : ℚ) ≤ ((round (y * 100) : ℤ) : ℚ) := by
    exact_mod_cast hr
  linarith

/-- `roundTo2` fixes every value that is an integer number of hundredths. -/
theorem roundTo2_hundredths (n : ℤ) : roundTo2 ((n : ℚ) / 100) = (n : ℚ) / 100 := by
  unfold roundTo2
  rw [show ((n : ℚ) / 100 * 100) = (n : ℚ) by field_simp, round_intCast]

/-- For nonnegative `c` and `v`, the comparison `c * sqrt v < |x|` is
equivalent to the squared comparison `c^2 * v < x^2`. -/
theorem mul_sqrt_lt_abs_iff {c v x : ℝ} (hc : 0 ≤ c) (hv : 0 ≤ v) :
    c * Real.sqrt v < |x| ↔ c ^ 2 * v < x ^ 2 := by
  have hs : c * Real.sqrt v = Real.sqrt (c ^ 2 * v) := by
    rw [Real.sqrt_mul (by positivity) v, Real.sqrt_sq hc]
  rw [hs]
  rcases eq_or_ne x 0 with rfl | hx
  · refine iff_of_false (not_lt.mpr ?_) (not_lt.mpr ?_)
    · simpa using Real.sqrt_nonneg (c ^ 2 * v)
    · nlinarith
  · have hax : 0 < |x| := abs_pos.mpr hx
    rw [← sq_abs x]
    exact Real.sqrt_lt' hax

/-- The mean of a non-empty constant list is the constant. -/
theorem mean_of_constant {c : ℚ} {xs : List ℚ} (hne : xs ≠ [])
    (h : ∀ x ∈ xs, x = c) : mean xs = c := by
  have hsum : xs.sum = xs.length • c := List.sum_eq_card_nsmul xs c h
  have hlen : (xs.length : ℚ) ≠ 0 := by
    exact_mod_cast Nat.pos_iff_ne_zero.mp (List.length_pos.mpr hne)
  unfold mean
  rw [hsum, nsmul_eq_mul]
  field_simp

/-- The population variance of a non-empty constant list is 0. -/
theorem popVar_of_constant {c : ℚ} {xs : List ℚ} (hne : xs ≠ [])
    (h : ∀ x ∈ xs, x = c) : popVar xs = 0 := by
  unfold popVar
  rw [List.sum_eq_zero, zero_div]
  intro y hy
  obtain ⟨x, hx, rfl⟩ := List.mem_map.mp hy
  rw [h x hx, mean_of_constant hne h]
  ring

/-- The population variance is nonnegative. -/
theorem popVar_nonneg (xs : List ℚ) : 0 ≤ popVar xs := by
  unfold popVar
  refine div_nonneg (List.sum_nonneg ?_) (by positivity)
  intro y hy
  obtain ⟨x, hx, rfl⟩ := List.mem_map.mp hy
  positivity

/-! ## C3: range suitability -/

/-- C3: `rangeSuitability` returns 1.0 on the whole optimal interval
(in particular at `(20, 15, 25)`), decays linearly below the range as
`max 0 (1 - (min-value)/min)` (0 at `(0, 15, 25)`) and above the range as
`max 0 (1 - (value-max)/max)`, and is monotonically non-increasing as the
value moves away from the interval on either side, for positive range
bounds. -/
theorem rangeSuitability_spec (minO maxO : ℚ) (hmin : 0 < minO)
    (hmax : 0 < maxO) (hord : minO ≤ maxO) :
    rangeSuitability 20 15 25 = 1 ∧
    rangeSuitability 0 15 25 = 0 ∧
    (∀ v, minO ≤ v → v ≤ maxO → rangeSuitability v minO maxO = 1) ∧
    (∀ v, v < minO →
      rangeSuitability v minO maxO = max 0 (1 - (minO - v) / minO)) ∧
    (∀ v, maxO < v →
      rangeSuitability v minO maxO = max 0 (1 - (v - maxO) / maxO)) ∧
    (∀ v w, v ≤ w → w ≤ minO →
      rangeSuitability v minO maxO ≤ rangeSuitability w minO maxO) ∧
    (∀ v w, maxO ≤ v → v ≤ w →
      rangeSuitability w minO maxO ≤ rangeSuitability v minO maxO) := by
  have hin : ∀ v, minO ≤ v → v ≤ maxO → rangeSuitability v minO maxO = 1 := by
    intro v h1 h2
    unfold rangeSuitability
    rw [if_pos ⟨h1, h2⟩]
  have hbelow : ∀ v, v < minO →
      rangeSuitability v minO maxO = max 0 (1 - (minO - v) / minO) := by
    intro v h1
    unfold rangeSuitability
    rw [if_neg (by rintro ⟨h2, -⟩; exact absurd h1 (not_lt.mpr h2)), if_pos h1]
  have habove : ∀ v, maxO < v →
      rangeSuitability v minO maxO = max 0 (1 - (v - maxO) / maxO) := by
    intro v h1
    unfold rangeSuitability
    rw [if_neg (by rintro ⟨-, h2⟩; exact absurd h1 (not_lt.mpr h2)),
      if_neg (not_lt.mpr (le_trans hord (le_of_lt h1)))]
  have hle1 : ∀ v, rangeSuitability v minO maxO ≤ 1 := by
    intro v
    rcases lt_trichotomy v minO with h1 | h1 | h1
    · rw [hbelow v h1]
      have h2 : 0 ≤ (minO - v) / minO := div_nonneg (by linarith) (by linarith)
      exact max_le (by norm_num) (by linarith)
    · exact le_of_eq (hin v h1.ge (h1.le.trans hord))
    · rcases le_or_lt v maxO with h2 | h2
      · exact le_of_eq (hin v h1.le h2)
      · rw [habove v h2]
        have h3 : 0 ≤ (v - maxO) / maxO := div_nonneg (by linarith) (by linarith)
        exact max_le (by norm_num) (by linarith)
  refine ⟨by norm_num [rangeSuitability], by norm_num [rangeSuitability],
    hin, hbelow, habove, ?_, ?_⟩
  · intro v w hvw hwm
    rcases eq_or_lt_of_le hwm with heq | hw
    · rw [heq, hin minO le_rfl hord]
      exact hle1 v
    · rw [hbelow v (lt_of_le_of_lt hvw hw), hbelow w hw]
      refine max_le_max le_rfl ?_
      have h2 : (minO - w) / minO ≤ (minO - v) / minO :=
        (div_le_div_iff_of_pos_right hmin).mpr (by linarith)
      linarith
  · intro v w hmv hvw
    rcases eq_or_lt_of_le hmv with heq | hv
    · rw [← heq, hin maxO hord le_rfl]
      exact hle1 w
    · rw [habove v hv, habove w (lt_of_lt_of_le hv hvw)]
      refine max_le_max le_rfl ?_
      have h2 : (v - maxO) / maxO ≤ (w - maxO) / maxO :=
        (div_le_div_iff_of_pos_right hmax).mpr (by linarith)
      linarith

/-- Witness for rangeSuitability_spec at the concrete bounds (15, 25). -/
theorem rangeSuitability_spec_witness :
    (0 : ℚ) < 15 ∧ (0 : ℚ) < 25 ∧ (15 : ℚ) ≤ 25 ∧
    rangeSuitability 20 15 25 = 1 ∧ rangeSuitability 0 15 25 = 0 := by
  refine ⟨by norm_num, by norm_num, by norm_num, ?_, ?_⟩
  · exact (rangeSuitability_spec 15 25 (by norm_num) (by norm_num) (by norm_num)).1
  · exact (rangeSuitability_spec 15 25 (by norm_num) (by norm_num)
      (by norm_num)).2.1


/-- Every crop in the reference table has a nonnegative base yield. -/
theorem cropParameters_base_nonneg {s : String} {cp : CropParams}
    (h : cropParameters.lookup s = some cp) : 0 ≤ cp.base_yield_per_hectare := by
  simp only [cropParameters, List.lookup] at h
  repeat' split at h
  all_goals simp_all
  all_goals cases h
  all_goals norm_num

/-! ## C2: when crop-level prediction raises -/

/-- Counterexample to C2 as stated: `predict_crop_yield` does not raise
only for unsupported crops — with the supported crop "wheat" and field
size 0 the source raises `ZeroDivisionError` in
`round(predicted_yield / field_size_hectares, 2)` (modelled as `none`),
so "raises only if the crop is unsupported" fails. -/
theorem predictCropYield_zero_field_cex :
    cropParameters.lookup (lowerString "wheat") ≠ none
    ∧ predictCropYield 0 "wheat" 0 0 20 70 (13/2) "Medium" "Medium" "Medium"
        50 = none := by
  have hlk : cropParameters.lookup "wheat"
      = some ⟨15, 25, 60, 80, 120, 450, 3000, 8/10, 6/10, 6, 75/10⟩ := by
    simp [cropParameters, List.lookup]
  constructor
  · rw [show lowerString "wheat" = "wheat" from by decide, hlk]
    simp
  · unfold predictCropYield
    rw [show lowerString "wheat" = "wheat" from by decide, hlk]
    norm_num

/-- C2 (amended): `predict_crop_yield` fails (raises, modelled as `none`)
exactly when the lowercased crop type is absent from the crop-parameter
table or the field size is 0 (the latter raising `ZeroDivisionError` in the
per-hectare division); for a supported crop and non-zero field size it
produces a prediction computed from that crop's own table entry (no default
substitution), and for an unsupported crop it fails before any prediction
is produced. -/
theorem predictCropYield_unsupported_iff (now : ℚ) (cropType : String)
    (fieldSize plantingDate avgTemp avgHumidity phLevel : ℚ)
    (nitrogen phosphorus potassium : String) (moisture : ℚ) :
    (predictCropYield now cropType fieldSize plantingDate avgTemp avgHumidity
        phLevel nitrogen phosphorus potassium moisture = none
      ↔ cropParameters.lookup (lowerString cropType) = none ∨ fieldSize = 0)
    ∧ (∀ cp : CropParams, cropParameters.lookup (lowerString cropType) = some cp →
        fieldSize ≠ 0 →
        ∃ r, predictCropYield now cropType fieldSize plantingDate avgTemp
            avgHumidity phLevel nitrogen phosphorus potassium moisture = some r
          ∧ r.crop_type = lowerString cropType
          ∧ r.weather_factors = analyzeWeatherFactors avgTemp avgHumidity cp
          ∧ r.soil_factors =
              analyzeSoilFactors phLevel nitrogen phosphorus potassium moisture cp
          ∧ r.expected_harvest_date = plantingDate + (cp.growing_days : ℚ)) := by
  constructor
  · cases hc : cropParameters.lookup (lowerString cropType) with
    | none => simp [predictCropYield, hc]
    | some cp =>
      by_cases hz : fieldSize = 0
      · simp [predictCropYield, hc, hz]
      · simp [predictCropYield, hc, hz]
  · intro cp hcp hz
    unfold predictCropYield
    rw [hcp]
    dsimp only
    rw [if_neg hz]
    exact ⟨_, rfl, rfl, rfl, rfl, rfl⟩

/-- Witness for `predictCropYield_unsupported_iff`: a rejected unsupported
crop, a rejected zero field size, and a supported crop (with mixed case,
non-zero field size) predicted from its table row. -/
theorem predictCropYield_unsupported_iff_witness :
    (predictCropYield 0 "banana" 1 0 20 70 (13/2) "Medium" "Medium" "Medium" 50
        = none)
    ∧ (predictCropYield 0 "rice" 0 0 20 70 (13/2) "Medium" "Medium" "Medium" 50
        = none)
    ∧ ((1 : ℚ) ≠ 0)
    ∧ (∃ r, predictCropYield 0 "WHEAT" 1 0 20 70 (13/2) "Medium" "Medium"
          "Medium" 50 = some r
        ∧ r.crop_type = lowerString "WHEAT"
        ∧ r.weather_factors =
            analyzeWeatherFactors 20 70 ⟨15, 25, 60, 80, 120, 450, 3000, (8/10), (6/10), 6, (75/10)⟩
        ∧ r.soil_factors =
            analyzeSoilFactors (13/2) "Medium" "Medium" "Medium" 50
              ⟨15, 25, 60, 80, 120, 450, 3000, (8/10), (6/10), 6, (75/10)⟩
        ∧ r.expected_harvest_date = 0 + ((120 : ℕ) : ℚ)) := by
  refine ⟨?_, ?_, by norm_num, ?_⟩
  · exact (predictCropYield_unsupported_iff 0 "banana" 1 0 20 70 (13/2)
      "Medium" "Medium" "Medium" 50).1.mpr (Or.inl (by decide))
  · exact (predictCropYield_unsupported_iff 0 "rice" 0 0 20 70 (13/2)
      "Medium" "Medium" "Medium" 50).1.mpr (Or.inr rfl)
  · refine (predictCropYield_unsupported_iff 0 "WHEAT" 1 0 20 70 (13/2)
      "Medium" "Medium" "Medium" 50).2
      ⟨15, 25, 60, 80, 120, 450, 3000, (8/10), (6/10), 6, (75/10)⟩ ?_ (by norm_num)
    rw [show lowerString "WHEAT" = "wheat" from by decide]
    simp [cropParameters, List.lookup]

/-! ## C1 and C9: bounds on the prediction outputs -/

/-- C1: every successful crop-level yield prediction (with a nonnegative
field size, which the API request model enforces as positive) has weather
impact factor in [0.3, 1.5], soil impact factor in [0.4, 1.3], confidence
score in [0, 0.95] and nonnegative predicted yield. -/
theorem predictCropYield_bounds (now : ℚ) (cropType : String)
    (fieldSize plantingDate avgTemp avgHumidity phLevel : ℚ)
    (nitrogen phosphorus potassium : String) (moisture : ℚ)
    (r : YieldPrediction)
    (h : predictCropYield now cropType fieldSize plantingDate avgTemp
        avgHumidity phLevel nitrogen phosphorus potassium moisture = some r)
    (hfs : 0 ≤ fieldSize) :
    (3/10) ≤ r.weather_impact_factor ∧ r.weather_impact_factor ≤ (15/10)
    ∧ (4/10) ≤ r.soil_impact_factor ∧ r.soil_impact_factor ≤ (13/10)
    ∧ 0 ≤ r.confidence_score ∧ r.confidence_score ≤ (95/100)
    ∧ 0 ≤ r.predicted_yield_kg := by
  unfold predictCropYield at h
  cases hc : cropParameters.lookup (lowerString cropType) with
  | none => rw [hc] at h; exact absurd h (by simp)
  | some cp =>
    rw [hc] at h
    dsimp only at h
    by_cases hz : fieldSize = 0
    · rw [if_pos hz] at h
      exact absurd h (by simp)
    rw [if_neg hz] at h
    injection h with h
    subst h
    dsimp only
    set wf := analyzeWeatherFactors avgTemp avgHumidity cp with hwf
    set sf := analyzeSoilFactors phLevel nitrogen phosphorus potassium moisture cp with hsf
    have hw1 : ((3/10) : ℚ) ≤ calculateWeatherImpact wf cp := le_max_left _ _
    have hw2 : calculateWeatherImpact wf cp ≤ (15/10) :=
      max_le (by norm_num) (min_le_left _ _)
    have hs1 : ((4/10) : ℚ) ≤ calculateSoilImpact sf cp := le_max_left _ _
    have hs2 : calculateSoilImpact sf cp ≤ (13/10) :=
      max_le (by norm_num) (min_le_left _ _)
    have hc1 : ((7/10) : ℚ) ≤ calculateConfidenceScore wf sf cp := by
      unfold calculateConfidenceScore
      refine le_min (by norm_num) ?_
      have b1 : (0 : ℚ) ≤ (if (8/10) < wf.temperature_suitability then ((1/10) : ℚ) else 0) := by
        split <;> norm_num
      have b2 : (0 : ℚ) ≤ (if (8/10) < sf.ph_suitability then ((1/10) : ℚ) else 0) := by
        split <;> norm_num
      have b3 : (0 : ℚ) ≤ (if (8/10) < sf.soil_fertility_score then ((1/10) : ℚ) else 0) := by
        split <;> norm_num
      linarith
    have hc2 : calculateConfidenceScore wf sf cp ≤ (95/100) := min_le_left _ _
    have hy : 0 ≤ cp.base_yield_per_hectare * fieldSize *
        calculateWeatherImpact wf cp * calculateSoilImpact sf cp :=
      mul_nonneg (mul_nonneg (mul_nonneg (cropParameters_base_nonneg hc) hfs)
        (le_trans (by norm_num : (0 : ℚ) ≤ (3/10)) hw1))
        (le_trans (by norm_num : (0 : ℚ) ≤ (4/10)) hs1)
    have e03 : roundTo2 ((3/10) : ℚ) = (3/10) := by
      have := roundTo2_hundredths 30; norm_num at this ⊢; exact this
    have e15 : roundTo2 ((15/10) : ℚ) = (15/10) := by
      have := roundTo2_hundredths 150; norm_num at this ⊢; exact this
    have e04 : roundTo2 ((4/10) : ℚ) = (4/10) := by
      have := roundTo2_hundredths 40; norm_num at this ⊢; exact this
    have e13 : roundTo2 ((13/10) : ℚ) = (13/10) := by
      have := roundTo2_hundredths 130; norm_num at this ⊢; exact this
    have e00 : roundTo2 (0 : ℚ) = 0 := by
      have := roundTo2_hundredths 0; norm_num at this ⊢; exact this
    have e095 : roundTo2 ((95/100) : ℚ) = (95/100) := by
      have := roundTo2_hundredths 95; norm_num at this ⊢; exact this
    refine ⟨?_, ?_, ?_, ?_, ?_, ?_, ?_⟩
    · exact e03 ▸ roundTo2_mono hw1
    · exact e15 ▸ roundTo2_mono hw2
    · exact e04 ▸ roundTo2_mono hs1
    · exact e13 ▸ roundTo2_mono hs2
    · have := roundTo2_mono (le_trans (by norm_num : (0:ℚ) ≤ (7/10)) hc1)
      exact e00 ▸ this
    · exact e095 ▸ roundTo2_mono hc2
    · exact e00 ▸ roundTo2_mono hy

/-- Witness for `predictCropYield_bounds` on a concrete wheat prediction. -/
theorem predictCropYield_bounds_witness :
    (0 : ℚ) ≤ 1
    ∧ (((3/10) : ℚ) ≤ 37/50 ∧ (37/50 : ℚ) ≤ (15/10)
      ∧ ((4/10) : ℚ) ≤ 43/50 ∧ (43/50 : ℚ) ≤ (13/10)
      ∧ (0 : ℚ) ≤ 9/10 ∧ (9/10 : ℚ) ≤ (95/100)
      ∧ (0 : ℚ) ≤ 9546/5) := by
  refine ⟨by norm_num, ?_⟩
  exact predictCropYield_bounds 0 "wheat" 1 0 20 70 (13/2) "Medium" "Medium"
    "Medium" 50
    ⟨"wheat", 1, 0, 120, 9546/5, 9546/5, 9/10, 37/50, 43/50,
      ⟨20, 70, 1, 1, 120, 0, 4/5⟩,
      ⟨13/2, 1, "Medium", "Medium", "Medium", 50, 4/5, 4/5, 7/10⟩,
      ["Monitor crop regularly for pests and diseases",
       "Ensure adequate water supply during critical growth stages",
       "Consider crop rotation to maintain soil health"], 0⟩
    (by
      have hlk : cropParameters.lookup "wheat"
          = some ⟨15, 25, 60, 80, 120, 450, 3000, 8/10, 6/10, 6, 75/10⟩ := by
        simp [cropParameters, List.lookup]
      unfold predictCropYield
      rw [show lowerString "wheat" = "wheat" from by decide, hlk]
      norm_num [analyzeWeatherFactors, analyzeSoilFactors,
        calculateWeatherImpact, calculateSoilImpact, calculateConfidenceScore,
        generateYieldRecommendations, rangeSuitability, nutrientScore,
        show (("Medium" == "Low")) = false from by decide,
        List.lookup, roundTo2, round_eq, max_def, min_def]) (by norm_num)

/-- C9: the confidence score of every successful crop-level prediction lies
in the narrower interval [0.7, 0.95]: it starts at 0.7, is only increased,
and is capped at 0.95. -/
theorem predictCropYield_confidence_range (now : ℚ) (cropType : String)
    (fieldSize plantingDate avgTemp avgHumidity phLevel : ℚ)
    (nitrogen phosphorus potassium : String) (moisture : ℚ)
    (r : YieldPrediction)
    (h : predictCropYield now cropType fieldSize plantingDate avgTemp
        avgHumidity phLevel nitrogen phosphorus potassium moisture = some r) :
    (7/10) ≤ r.confidence_score ∧ r.confidence_score ≤ (95/100) := by
  unfold predictCropYield at h
  cases hc : cropParameters.lookup (lowerString cropType) with
  | none => rw [hc] at h; exact absurd h (by simp)
  | some cp =>
    rw [hc] at h
    dsimp only at h
    by_cases hz : fieldSize = 0
    · rw [if_pos hz] at h
      exact absurd h (by simp)
    rw [if_neg hz] at h
    injection h with h
    subst h
    dsimp only
    set wf := analyzeWeatherFactors avgTemp avgHumidity cp with hwf
    set sf := analyzeSoilFactors phLevel nitrogen phosphorus potassium moisture cp with hsf
    have hc1 : ((7/10) : ℚ) ≤ calculateConfidenceScore wf sf cp := by
      unfold calculateConfidenceScore
      refine le_min (by norm_num) ?_
      have b1 : (0 : ℚ) ≤ (if (8/10) < wf.temperature_suitability then ((1/10) : ℚ) else 0) := by
        split <;> norm_num
      have b2 : (0 : ℚ) ≤ (if (8/10) < sf.ph_suitability then ((1/10) : ℚ) else 0) := by
        split <;> norm_num
      have b3 : (0 : ℚ) ≤ (if (8/10) < sf.soil_fertility_score then ((1/10) : ℚ) else 0) := by
        split <;> norm_num
      linarith
    have hc2 : calculateConfidenceScore wf sf cp ≤ (95/100) := min_le_left _ _
    have e07 : roundTo2 ((7/10) : ℚ) = (7/10) := by
      have := roundTo2_hundredths 70; norm_num at this ⊢; exact this
    have e095 : roundTo2 ((95/100) : ℚ) = (95/100) := by
      have := roundTo2_hundredths 95; norm_num at this ⊢; exact this
    exact ⟨e07 ▸ roundTo2_mono hc1, e095 ▸ roundTo2_mono hc2⟩

/-- Witness for `predictCropYield_confidence_range` on a concrete corn
prediction. -/
theorem predictCropYield_confidence_range_witness :
    ((7/10) : ℚ) ≤ 4/5 ∧ (4/5 : ℚ) ≤ (95/100) := by
  exact predictCropYield_confidence_range 0 "corn" 2 0 40 70 (13/2) "Low"
    "Low" "Low" 50
    ⟨"corn", 2, 0, 100, 406741/100, 20337/10, 4/5, 27/50, 19/25,
      ⟨40, 70, 14/27, 1, 100, 130/27, 4/5⟩,
      ⟨13/2, 1, "Low", "Low", "Low", 50, 3/5, 4/5, 7/10⟩,
      ["Consider using shade nets or greenhouse cultivation to optimize temperature",
       "Apply balanced fertilizer to improve soil nutrient levels",
       "Monitor crop regularly for pests and diseases",
       "Ensure adequate water supply during critical growth stages",
       "Consider crop rotation to maintain soil health"], 0⟩
    (by
      have hlk : cropParameters.lookup "corn"
          = some ⟨18, 27, 65, 85, 100, 500, 5000, 7/10, 5/10, 6, 7⟩ := by
        simp [cropParameters, List.lookup]
      unfold predictCropYield
      rw [show lowerString "corn" = "corn" from by decide, hlk]
      norm_num [analyzeWeatherFactors, analyzeSoilFactors,
        calculateWeatherImpact, calculateSoilImpact, calculateConfidenceScore,
        generateYieldRecommendations, rangeSuitability, nutrientScore,
        show (("Low" == "Low")) = true from by decide,
        List.lookup, roundTo2, round_eq, max_def, min_def])

/-! ## C5: management zones -/

/-- C5: `generateManagementZones` is a pure function of its inputs;
with non-empty elevation and soil-sample collections it returns exactly the
four fixed zones, in the order low / medium-low / medium-high / high
elevation, whose ranges are delimited by the minimum, the 25th/50th/75th
percentiles and the maximum of the elevations, with the fixed
characteristic and recommendation lists (good drainage at low elevation,
poor drainage at high elevation); with either collection empty it returns
exactly the one `uniform` zone. -/
theorem generateManagementZones_spec (boundaries : List (ℚ × ℚ))
    (elevationData : List ElevationPoint) (soilSamples : List SoilSample) :
    (elevationData ≠ [] → soilSamples ≠ [] →
      generateManagementZones boundaries elevationData soilSamples =
        [{ zone_id := "low_elevation"
           name := "Low Elevation Zone"
           elevation_range := some (listMin (elevationData.map (·.elevation)),
             npPercentile (elevationData.map (·.elevation)) 25)
           characteristics := ["good_drainage", "lower_water_retention"]
           management_recommendations := ["increased_irrigation", "nitrogen_management"] },
         { zone_id := "medium_low_elevation"
           name := "Medium-Low Elevation Zone"
           elevation_range := some (npPercentile (elevationData.map (·.elevation)) 25,
             npPercentile (elevationData.map (·.elevation)) 50)
           characteristics := ["moderate_drainage", "medium_water_retention"]
           management_recommendations := ["balanced_fertilization", "standard_practices"] },
         { zone_id := "medium_high_elevation"
           name := "Medium-High Elevation Zone"
           elevation_range := some (npPercentile (elevationData.map (·.elevation)) 50,
             npPercentile (elevationData.map (·.elevation)) 75)
           characteristics := ["moderate_drainage", "good_water_retention"]
           management_recommendations := ["phosphorus_focus", "erosion_control"] },
         { zone_id := "high_elevation"
           name := "High Elevation Zone"
           elevation_range := some (npPercentile (elevationData.map (·.elevation)) 75,
             listMax (elevationData.map (·.elevation)))
           characteristics := ["poor_drainage", "high_water_retention"]
           management_recommendations := ["drainage_improvement", "reduced_irrigation"] }])
    ∧ (elevationData = [] ∨ soilSamples = [] →
        generateManagementZones boundaries elevationData soilSamples =
          [{ zone_id := "uniform"
             name := "Uniform Management Zone"
             elevation_range := none
             characteristics := ["standard_conditions"]
             management_recommendations := ["standard_practices"] }]) := by
  constructor
  · intro he hs
    unfold generateManagementZones
    rw [if_pos ⟨by simpa using he, by simpa using hs⟩,
      if_pos (by simpa using he)]
  · intro hcase
    unfold generateManagementZones
    rw [if_neg]
    rintro ⟨h1, h2⟩
    rcases hcase with hc | hc
    · exact h1 (by simp [hc])
    · exact h2 (by simp [hc])

/-- Witness for `generateManagementZones_spec` on four elevation samples
10, 20, 30, 40 (quartiles 17.5, 25, 32.5) and on empty soil samples. -/
theorem generateManagementZones_spec_witness :
    ([(⟨(0, 0), 10⟩ : ElevationPoint), ⟨(0, 0), 20⟩, ⟨(0, 0), 30⟩,
        ⟨(0, 0), 40⟩] ≠ [])
    ∧ ([(⟨(0, 0), 7⟩ : SoilSample)] ≠ [])
    ∧ (generateManagementZones []
        [⟨(0, 0), 10⟩, ⟨(0, 0), 20⟩, ⟨(0, 0), 30⟩, ⟨(0, 0), 40⟩]
        [⟨(0, 0), 7⟩]).map (fun z => z.elevation_range)
        = [some (10, 35/2), some (35/2, 25), some (25, 65/2), some (65/2, 40)]
    ∧ (generateManagementZones []
        [⟨(0, 0), 10⟩, ⟨(0, 0), 20⟩, ⟨(0, 0), 30⟩, ⟨(0, 0), 40⟩] []).map
        (fun z => z.zone_id) = ["uniform"] := by
  refine ⟨by simp, by simp, ?_, ?_⟩
  · rw [(generateManagementZones_spec []
      [⟨(0, 0), 10⟩, ⟨(0, 0), 20⟩, ⟨(0, 0), 30⟩, ⟨(0, 0), 40⟩]
      [⟨(0, 0), 7⟩]).1 (by simp) (by simp)]
    norm_num [npPercentile, listMin, listMax, List.insertionSort,
      List.orderedInsert, Int.floor_eq_iff, List.getD,
      show Int.toNat 2 = 2 from rfl, show Int.toNat 1 = 1 from rfl,
      show Int.toNat 0 = 0 from rfl]
  · rw [(generateManagementZones_spec []
      [⟨(0, 0), 10⟩, ⟨(0, 0), 20⟩, ⟨(0, 0), 30⟩, ⟨(0, 0), 40⟩] []).2
      (Or.inr rfl)]
    simp

/-! ## C6: application-rate modifiers do not compose -/

/-- Counterexample to C6: for a zone carrying both `poor_drainage` and
`good_drainage`, the source's `elif` gives the modifier 0.8 (rate 120 for
fertilizer/corn), not the claimed multiplicative composition
`0.8 * 1.1` (rate 132). -/
theorem applicationRates_no_composition_cex :
    (generateApplicationRates
        [{ zone_id := "z1", name := "Z1", elevation_range := none
           characteristics := ["poor_drainage", "good_drainage"]
           management_recommendations := [] }] "fertilizer" "corn" []).map
        (fun e => e.application_rate) = [120]
    ∧ baseRateFor "fertilizer" "corn" *
        specApplicationModifier ["poor_drainage", "good_drainage"] = 132
    ∧ (120 : ℚ) ≠ 132 := by
  refine ⟨?_, ?_, by norm_num⟩
  · simp [generateApplicationRates, baseRateFor, baseRates, rateModifier,
      List.lookup]
    norm_num
  · simp [baseRateFor, baseRates, specApplicationModifier, List.lookup]
    norm_num

/-- C6 (amended): each zone's application rate is the `(type, crop)` base
rate times a single modifier determined by a fixed priority:
`poor_drainage` (if present) gives 0.8 regardless of the other
characteristics, otherwise `good_drainage` gives 1.1, otherwise 1.0 —
the modifiers are not composed. -/
theorem applicationRates_modifier_spec (fieldZones : List ManagementZone)
    (appType crop : String) (soilTests : List SoilSample) :
    ((generateApplicationRates fieldZones appType crop soilTests).map
        (fun e => e.application_rate)
      = fieldZones.map
          (fun z => baseRateFor appType crop * rateModifier z.characteristics))
    ∧ (∀ chars : List String, "poor_drainage" ∈ chars →
        rateModifier chars = 8/10)
    ∧ (∀ chars : List String, "poor_drainage" ∉ chars →
        "good_drainage" ∈ chars → rateModifier chars = 11/10)
    ∧ (∀ chars : List String, "poor_drainage" ∉ chars →
        "good_drainage" ∉ chars → rateModifier chars = 1) := by
  refine ⟨?_, ?_, ?_, ?_⟩
  · unfold generateApplicationRates
    rw [List.map_map]
    rfl
  · intro chars hp
    unfold rateModifier
    rw [if_pos hp]
    norm_num
  · intro chars hp hg
    unfold rateModifier
    rw [if_neg hp, if_pos hg]
    norm_num
  · intro chars hp hg
    unfold rateModifier
    rw [if_neg hp, if_neg hg]

/-- Witness for `applicationRates_modifier_spec` on one zone of each kind. -/
theorem applicationRates_modifier_spec_witness :
    ("poor_drainage" ∈ ["poor_drainage", "good_drainage"]
      ∧ rateModifier ["poor_drainage", "good_drainage"] = 8/10)
    ∧ ("poor_drainage" ∉ ["good_drainage"]
      ∧ "good_drainage" ∈ ["good_drainage"]
      ∧ rateModifier ["good_drainage"] = 11/10)
    ∧ ("poor_drainage" ∉ ["standard_conditions"]
      ∧ "good_drainage" ∉ ["standard_conditions"]
      ∧ rateModifier ["standard_conditions"] = 1) := by
  refine ⟨⟨by simp, ?_⟩, ⟨by simp, by simp, ?_⟩, ⟨by simp, by simp, ?_⟩⟩
  · exact (applicationRates_modifier_spec [] "fertilizer" "corn" []).2.1
      ["poor_drainage", "good_drainage"] (by simp)
  · exact (applicationRates_modifier_spec [] "fertilizer" "corn" []).2.2.1
      ["good_drainage"] (by simp) (by simp)
  · exact (applicationRates_modifier_spec [] "fertilizer" "corn" []).2.2.2
      ["standard_conditions"] (by simp) (by simp)

/-! ## C4 and C10: anomaly detection -/

/-- C4: `detectFieldAnomalies` flags a data point exactly when the absolute
difference between its value and the population mean exceeds twice the
population standard deviation, the severity of a flagged point is "high"
exactly when that difference exceeds three standard deviations (else
"medium"), and the empty input yields the empty anomaly list (the
`filterMap` of the empty list). -/
theorem detectFieldAnomalies_spec (dataPoints : List DataPoint)
    (dataType : String) :
    detectFieldAnomalies dataPoints dataType =
      dataPoints.filterMap (fun p =>
        if 2 * Real.sqrt ((popVar (dataPoints.map (·.value)) : ℚ) : ℝ)
            < |((p.value : ℚ) : ℝ) - ((mean (dataPoints.map (·.value)) : ℚ) : ℝ)| then
          some { location := p.location
                 value := p.value
                 expected_range :=
                   (((mean (dataPoints.map (·.value)) : ℚ) : ℝ)
                      - Real.sqrt ((popVar (dataPoints.map (·.value)) : ℚ) : ℝ),
                    ((mean (dataPoints.map (·.value)) : ℚ) : ℝ)
                      + Real.sqrt ((popVar (dataPoints.map (·.value)) : ℚ) : ℝ))
                 severity :=
                   if 3 * Real.sqrt ((popVar (dataPoints.map (·.value)) : ℚ) : ℝ)
                       < |((p.value : ℚ) : ℝ)
                           - ((mean (dataPoints.map (·.value)) : ℚ) : ℝ)| then
                     "high"
                   else "medium"
                 type := "outlier" }
        else none) := by
  rcases eq_or_ne dataPoints [] with rfl | hne
  · simp [detectFieldAnomalies]
  · unfold detectFieldAnomalies
    rw [if_neg (by simpa using hne)]
    apply List.filterMap_congr
    intro p hp
    have hv : (0 : ℝ) ≤ ((popVar (dataPoints.map (·.value)) : ℚ) : ℝ) := by
      exact_mod_cast popVar_nonneg (dataPoints.map (·.value))
    have h2 : 4 * popVar (dataPoints.map (·.value))
          < (p.value - mean (dataPoints.map (·.value))) ^ 2
        ↔ 2 * Real.sqrt ((popVar (dataPoints.map (·.value)) : ℚ) : ℝ)
          < |((p.value : ℚ) : ℝ) - ((mean (dataPoints.map (·.value)) : ℚ) : ℝ)| := by
      rw [mul_sqrt_lt_abs_iff (by norm_num) hv, show ((2 : ℝ)) ^ 2 = 4 by norm_num]
      constructor <;> intro hlt <;> [exact_mod_cast hlt; exact_mod_cast hlt]
    have h3 : 9 * popVar (dataPoints.map (·.value))
          < (p.value - mean (dataPoints.map (·.value))) ^ 2
        ↔ 3 * Real.sqrt ((popVar (dataPoints.map (·.value)) : ℚ) : ℝ)
          < |((p.value : ℚ) : ℝ) - ((mean (dataPoints.map (·.value)) : ℚ) : ℝ)| := by
      rw [mul_sqrt_lt_abs_iff (by norm_num) hv, show ((3 : ℝ)) ^ 2 = 9 by norm_num]
      constructor <;> intro hlt <;> [exact_mod_cast hlt; exact_mod_cast hlt]
    have hsev :
        (if 9 * popVar (dataPoints.map (·.value))
            < (p.value - mean (dataPoints.map (·.value))) ^ 2 then "high"
         else "medium")
        = (if 3 * Real.sqrt ((popVar (dataPoints.map (·.value)) : ℚ) : ℝ)
            < |((p.value : ℚ) : ℝ) - ((mean (dataPoints.map (·.value)) : ℚ) : ℝ)| then
            "high"
          else "medium") := if_congr h3 rfl rfl
    exact if_congr h2 (by rw [hsev]) rfl

/-- C10: on a non-empty list of monitoring points whose values are all
equal (in particular on any single-point list) the population variance is 0
and `detectFieldAnomalies` returns no anomaly. -/
theorem detectFieldAnomalies_constant (dataPoints : List DataPoint) (c : ℚ)
    (dataType : String) (hne : dataPoints ≠ [])
    (hall : ∀ p ∈ dataPoints, p.value = c) :
    popVar (dataPoints.map (·.value)) = 0
    ∧ detectFieldAnomalies dataPoints dataType = [] := by
  have hvals : ∀ x ∈ dataPoints.map (·.value), x = c := by
    intro x hx
    obtain ⟨p, hp, rfl⟩ := List.mem_map.mp hx
    exact hall p hp
  have hvne : dataPoints.map (·.value) ≠ [] := by simpa using hne
  have hv0 : popVar (dataPoints.map (·.value)) = 0 :=
    popVar_of_constant hvne hvals
  have hm : mean (dataPoints.map (·.value)) = c :=
    mean_of_constant hvne hvals
  refine ⟨hv0, ?_⟩
  unfold detectFieldAnomalies
  rw [if_neg (by simpa using hne)]
  rw [List.filterMap_eq_nil_iff]
  intro p hp
  rw [if_neg]
  rw [hv0, hm, hall p hp]
  norm_num

/-- Witness for `detectFieldAnomalies_constant` on a single extreme
reading. -/
theorem detectFieldAnomalies_constant_witness :
    ([(⟨(0, 0), 1000000⟩ : DataPoint)] ≠ [])
    ∧ (∀ p ∈ [(⟨(0, 0), 1000000⟩ : DataPoint)], p.value = 1000000)
    ∧ (popVar ([(⟨(0, 0), 1000000⟩ : DataPoint)].map (·.value)) = 0
      ∧ detectFieldAnomalies [⟨(0, 0), 1000000⟩] "ndvi" = []) := by
  refine ⟨by simp, by simp, ?_⟩
  exact detectFieldAnomalies_constant [⟨(0, 0), 1000000⟩] 1000000 "ndvi"
    (by simp) (by simp)

/-! ## C7: yield variability classification -/

/-- C7 (amended): for a non-empty prediction list the variability map
classifies the zones, in order, by `yieldCategory` applied to the deviation
from the mean and the population variance; for positive variance the
categories correspond to the z-score `z = (yield - mean)/std` as
high_yield on `z > 1`, above_average on `0 < z ≤ 1`, below_average on
`-1 < z ≤ 0`, and low_yield on `z ≤ -1` (the claim's boundaries `z = -1`
and `z = 0` land in low_yield and below_average respectively); when the
variance is 0 the deviation is taken to be 0, so every zone is
below_average. -/
theorem createYieldVariabilityMap_categories
    (yieldPredictions : List ZoneYieldPrediction) (d v : ℚ)
    (hne : yieldPredictions ≠ []) (hv : 0 < v) :
    ((createYieldVariabilityMap yieldPredictions).map
        (fun mp => mp.zones.map (fun z => z.yield_category))
      = some (yieldPredictions.map (fun p =>
          yieldCategory
            (p.predicted_yield_kg_ha
              - mean (yieldPredictions.map (·.predicted_yield_kg_ha)))
            (popVar (yieldPredictions.map (·.predicted_yield_kg_ha))))))
    ∧ (yieldCategory d v = "high_yield"
        ↔ 1 < (d : ℝ) / Real.sqrt ((v : ℚ) : ℝ))
    ∧ (yieldCategory d v = "above_average"
        ↔ 0 < (d : ℝ) / Real.sqrt ((v : ℚ) : ℝ)
          ∧ (d : ℝ) / Real.sqrt ((v : ℚ) : ℝ) ≤ 1)
    ∧ (yieldCategory d v = "below_average"
        ↔ -1 < (d : ℝ) / Real.sqrt ((v : ℚ) : ℝ)
          ∧ (d : ℝ) / Real.sqrt ((v : ℚ) : ℝ) ≤ 0)
    ∧ (yieldCategory d v = "low_yield"
        ↔ (d : ℝ) / Real.sqrt ((v : ℚ) : ℝ) ≤ -1)
    ∧ (∀ e : ℚ, yieldCategory e 0 = "below_average") := by
  have hvR : (0 : ℝ) < ((v : ℚ) : ℝ) := by exact_mod_cast hv
  have hS : (0 : ℝ) < Real.sqrt ((v : ℚ) : ℝ) := Real.sqrt_pos.mpr hvR
  have cHigh : yieldCategory d v = "high_yield" ↔ (0 < d ∧ v < d ^ 2) := by
    unfold yieldCategory
    rw [if_pos hv]
    by_cases hA : 0 < d ∧ v < d ^ 2
    · rw [if_pos hA]; exact iff_of_true rfl hA
    · rw [if_neg hA]
      by_cases hB : 0 < d
      · rw [if_pos hB]; exact iff_of_false (by decide) hA
      · rw [if_neg hB]
        by_cases hC : 0 ≤ d ∨ d ^ 2 < v
        · rw [if_pos hC]; exact iff_of_false (by decide) hA
        · rw [if_neg hC]; exact iff_of_false (by decide) hA
  have cAbove : yieldCategory d v = "above_average" ↔ (0 < d ∧ d ^ 2 ≤ v) := by
    unfold yieldCategory
    rw [if_pos hv]
    by_cases hA : 0 < d ∧ v < d ^ 2
    · rw [if_pos hA]
      exact iff_of_false (by decide)
        (by rintro ⟨-, h2⟩; exact absurd hA.2 (not_lt.mpr h2))
    · rw [if_neg hA]
      by_cases hB : 0 < d
      · rw [if_pos hB]
        exact iff_of_true rfl ⟨hB, le_of_not_lt fun hlt => hA ⟨hB, hlt⟩⟩
      · rw [if_neg hB]
        by_cases hC : 0 ≤ d ∨ d ^ 2 < v
        · rw [if_pos hC]; exact iff_of_false (by decide) fun hR => hB hR.1
        · rw [if_neg hC]; exact iff_of_false (by decide) fun hR => hB hR.1
  have cBelow : yieldCategory d v = "below_average"
      ↔ (¬0 < d ∧ (0 ≤ d ∨ d ^ 2 < v)) := by
    unfold yieldCategory
    rw [if_pos hv]
    by_cases hA : 0 < d ∧ v < d ^ 2
    · rw [if_pos hA]; exact iff_of_false (by decide) fun hR => hR.1 hA.1
    · rw [if_neg hA]
      by_cases hB : 0 < d
      · rw [if_pos hB]; exact iff_of_false (by decide) fun hR => hR.1 hB
      · rw [if_neg hB]
        by_cases hC : 0 ≤ d ∨ d ^ 2 < v
        · rw [if_pos hC]; exact iff_of_true rfl ⟨hB, hC⟩
        · rw [if_neg hC]; exact iff_of_false (by decide) fun hR => hC hR.2
  have cLow : yieldCategory d v = "low_yield" ↔ (d < 0 ∧ v ≤ d ^ 2) := by
    unfold yieldCategory
    rw [if_pos hv]
    by_cases hA : 0 < d ∧ v < d ^ 2
    · rw [if_pos hA]
      exact iff_of_false (by decide) fun hR => absurd hA.1 (not_lt.mpr hR.1.le)
    · rw [if_neg hA]
      by_cases hB : 0 < d
      · rw [if_pos hB]
        exact iff_of_false (by decide) fun hR => absurd hB (not_lt.mpr hR.1.le)
      · rw [if_neg hB]
        by_cases hC : 0 ≤ d ∨ d ^ 2 < v
        · rw [if_pos hC]
          refine iff_of_false (by decide) ?_
          rintro ⟨h1, h2⟩
          rcases hC with h3 | h3
          · exact absurd h1 (not_lt.mpr h3)
          · exact absurd h3 (not_lt.mpr h2)
        · rw [if_neg hC]
          exact iff_of_true rfl
            ⟨lt_of_not_ge fun hge => hC (Or.inl hge),
             le_of_not_lt fun hlt => hC (Or.inr hlt)⟩
  have r1 : 1 < (d : ℝ) / Real.sqrt ((v : ℚ) : ℝ) ↔ (0 < d ∧ v < d ^ 2) := by
    rw [lt_div_iff₀ hS, one_mul]
    constructor
    · intro h
      have hD : (0 : ℝ) < (d : ℝ) := lt_of_le_of_lt (Real.sqrt_nonneg _) h
      have h2 : ((v : ℚ) : ℝ) < ((d : ℝ)) ^ 2 := (Real.sqrt_lt' hD).mp h
      exact ⟨by exact_mod_cast hD, by exact_mod_cast h2⟩
    · rintro ⟨h1, h2⟩
      have hD : (0 : ℝ) < (d : ℝ) := by exact_mod_cast h1
      exact (Real.sqrt_lt' hD).mpr (by exact_mod_cast h2)
  have r2 : 0 < (d : ℝ) / Real.sqrt ((v : ℚ) : ℝ) ↔ 0 < d := by
    rw [lt_div_iff₀ hS, zero_mul]
    exact ⟨fun h => by exact_mod_cast h, fun h => by exact_mod_cast h⟩
  have r3 : (d : ℝ) / Real.sqrt ((v : ℚ) : ℝ) ≤ 1 ↔ (d ≤ 0 ∨ d ^ 2 ≤ v) := by
    rw [div_le_one hS]
    constructor
    · intro h
      by_cases hd : d ≤ 0
      · exact Or.inl hd
      · have hd0 : (0 : ℝ) ≤ (d : ℝ) := by
          exact_mod_cast le_of_lt (lt_of_not_ge hd)
        have h2 : ((d : ℝ)) ^ 2 ≤ ((v : ℚ) : ℝ) :=
          (Real.le_sqrt hd0 hvR.le).mp h
        exact Or.inr (by exact_mod_cast h2)
    · intro h
      rcases h with hd | h2
      · exact le_trans (by exact_mod_cast hd) (Real.sqrt_nonneg _)
      · by_cases hd : d ≤ 0
        · exact le_trans (by exact_mod_cast hd) (Real.sqrt_nonneg _)
        · have hd0 : (0 : ℝ) ≤ (d : ℝ) := by
            exact_mod_cast le_of_lt (lt_of_not_ge hd)
          exact (Real.le_sqrt hd0 hvR.le).mpr (by exact_mod_cast h2)
  have r6 : (d : ℝ) / Real.sqrt ((v : ℚ) : ℝ) ≤ 0 ↔ d ≤ 0 := by
    rw [div_le_iff₀ hS, zero_mul]
    exact ⟨fun h => by exact_mod_cast h, fun h => by exact_mod_cast h⟩
  have r4 : -1 < (d : ℝ) / Real.sqrt ((v : ℚ) : ℝ) ↔ (0 ≤ d ∨ d ^ 2 < v) := by
    rw [lt_div_iff₀ hS, neg_one_mul]
    constructor
    · intro h
      by_cases hd : 0 ≤ d
      · exact Or.inl hd
      · have hdn : ((d : ℝ)) < 0 := by exact_mod_cast lt_of_not_ge hd
        have h2 : -(d : ℝ) < Real.sqrt ((v : ℚ) : ℝ) := by linarith
        have h3 : (-(d : ℝ)) ^ 2 < ((v : ℚ) : ℝ) :=
          (Real.lt_sqrt (by linarith)).mp h2
        rw [neg_sq] at h3
        exact Or.inr (by exact_mod_cast h3)
    · intro h
      rcases h with hd | h2
      · have hd0 : (0 : ℝ) ≤ (d : ℝ) := by exact_mod_cast hd
        linarith
      · by_cases hd : 0 ≤ d
        · have hd0 : (0 : ℝ) ≤ (d : ℝ) := by exact_mod_cast hd
          linarith
        · have hdn : ((d : ℝ)) < 0 := by exact_mod_cast lt_of_not_ge hd
          have h3 : -(d : ℝ) < Real.sqrt ((v : ℚ) : ℝ) := by
            refine (Real.lt_sqrt (by linarith)).mpr ?_
            rw [neg_sq]
            exact_mod_cast h2
          linarith
  have r5 : (d : ℝ) / Real.sqrt ((v : ℚ) : ℝ) ≤ -1 ↔ (d < 0 ∧ v ≤ d ^ 2) := by
    rw [div_le_iff₀ hS, neg_one_mul]
    constructor
    · intro h
      have hDneg : ((d : ℝ)) < 0 :=
        lt_of_le_of_lt h (by linarith : -Real.sqrt ((v : ℚ) : ℝ) < 0)
      have h1 : Real.sqrt ((v : ℚ) : ℝ) ≤ -(d : ℝ) := by linarith
      have h2 : ((v : ℚ) : ℝ) ≤ (-(d : ℝ)) ^ 2 := (Real.sqrt_le_iff.mp h1).2
      rw [neg_sq] at h2
      exact ⟨by exact_mod_cast hDneg, by exact_mod_cast h2⟩
    · rintro ⟨h1, h2⟩
      have hDneg : ((d : ℝ)) < 0 := by exact_mod_cast h1
      have h3 : Real.sqrt ((v : ℚ) : ℝ) ≤ -(d : ℝ) := by
        refine Real.sqrt_le_iff.mpr ⟨by linarith, ?_⟩
        rw [neg_sq]
        exact_mod_cast h2
      linarith
  refine ⟨?_, ?_, ?_, ?_, ?_, ?_⟩
  · unfold createYieldVariabilityMap
    rw [if_neg (by simpa using hne)]
    simp only [Option.map_some', List.map_map]
    rfl
  · exact cHigh.trans r1.symm
  · refine cAbove.trans ?_
    rw [r2, r3]
    constructor
    · rintro ⟨h1, h2⟩; exact ⟨h1, Or.inr h2⟩
    · rintro ⟨h1, h2⟩
      rcases h2 with h2 | h2
      · exact absurd h1 (not_lt.mpr h2)
      · exact ⟨h1, h2⟩
  · refine cBelow.trans ?_
    rw [r4, r6]
    constructor
    · rintro ⟨h1, h2⟩; exact ⟨h2, not_lt.mp h1⟩
    · rintro ⟨h1, h2⟩; exact ⟨not_lt.mpr h2, h1⟩
  · exact cLow.trans r5.symm
  · intro e
    unfold yieldCategory
    rw [if_neg (lt_irrefl 0)]

/-- Witness for `createYieldVariabilityMap_categories` on two zones with
yields 0 and 2 (mean 1, variance 1): the categories are low_yield and
above_average. -/
theorem createYieldVariabilityMap_categories_witness :
    (([⟨"a", 0⟩, ⟨"b", 2⟩] : List ZoneYieldPrediction) ≠ [])
    ∧ ((0 : ℚ) < 1)
    ∧ ((createYieldVariabilityMap [⟨"a", 0⟩, ⟨"b", 2⟩]).map
        (fun mp => mp.zones.map (fun z => z.yield_category))
      = some ["low_yield", "above_average"]) := by
  refine ⟨by simp, by norm_num, ?_⟩
  rw [(createYieldVariabilityMap_categories [⟨"a", 0⟩, ⟨"b", 2⟩] (-1) 1
    (by simp) (by norm_num)).1]
  norm_num [yieldCategory, mean, popVar]

/-- Counterexample to C7 as stated: at the zone with z-score exactly -1
(yields 0 and 2) the code produces low_yield, while the claim's interval
`[-1, 0)` for below_average would classify it as below_average. -/
theorem yieldVariability_claim_cex :
    ((createYieldVariabilityMap [⟨"a", 0⟩, ⟨"b", 2⟩]).map
        (fun mp => mp.zones.map (fun z => z.yield_category))
      = some ["low_yield", "above_average"])
    ∧ specYieldCategory ((((0 : ℚ) - mean [(0 : ℚ), 2] : ℚ) : ℝ)
        / Real.sqrt ((popVar [(0 : ℚ), 2] : ℚ) : ℝ)) = "below_average"
    ∧ ("low_yield" : String) ≠ "below_average" := by
  refine ⟨?_, ?_, by decide⟩
  · unfold createYieldVariabilityMap
    rw [if_neg (by simp)]
    simp only [Option.map_some', List.map_map]
    norm_num [yieldCategory, mean, popVar]
  · have hm : mean [(0 : ℚ), 2] = 1 := by norm_num [mean]
    have hv : popVar [(0 : ℚ), 2] = 1 := by norm_num [popVar, mean]
    rw [hm, hv]
    norm_num [Real.sqrt_one, specYieldCategory]

/-! ## C8: time dependence of the monitoring analysis -/

/-- C8 (amended): with the call clock made explicit, all fields of the
monitoring analysis other than `analyzed_at`, `next_monitoring_date` and
the defaulted `measurement_date` are functions of the input alone (two runs
at different clock values agree on them); `analyzed_at` is the clock,
`next_monitoring_date` is the clock plus the per-type cadence, and
`measurement_date` falls back to the clock only when the input carries no
date. -/
theorem analyzeFieldMonitoringData_determinism (t1 t2 : ℚ)
    (inp : MonitoringInput) :
    (analyzeFieldMonitoringData t1 inp).type
        = (analyzeFieldMonitoringData t2 inp).type
    ∧ (analyzeFieldMonitoringData t1 inp).analysis_results
        = (analyzeFieldMonitoringData t2 inp).analysis_results
    ∧ (analyzeFieldMonitoringData t1 inp).anomalies_detected
        = (analyzeFieldMonitoringData t2 inp).anomalies_detected
    ∧ (analyzeFieldMonitoringData t1 inp).field_statistics
        = (analyzeFieldMonitoringData t2 inp).field_statistics
    ∧ (analyzeFieldMonitoringData t1 inp).spatial_patterns
        = (analyzeFieldMonitoringData t2 inp).spatial_patterns
    ∧ (analyzeFieldMonitoringData t1 inp).recommendations
        = (analyzeFieldMonitoringData t2 inp).recommendations
    ∧ (analyzeFieldMonitoringData t1 inp).measurement_date = inp.date.getD t1
    ∧ (analyzeFieldMonitoringData t1 inp).next_monitoring_date
        = t1 + monitoringInterval inp.type
    ∧ (analyzeFieldMonitoringData t1 inp).analyzed_at = t1 :=
  ⟨rfl, rfl, rfl, rfl, rfl, rfl, rfl, rfl, rfl⟩

/-- Counterexample to C8 as stated: two calls with identical inputs (the
measurement date is supplied, so it does not default) but different clock
values disagree on the `next_monitoring_date` field, which is therefore not
a function of the inputs alone. -/
theorem analyzeFieldMonitoringData_clock_cex :
    (analyzeFieldMonitoringData 0
        { type := "ndvi", data_points := [], field_boundaries := [],
          date := some 0 }).next_monitoring_date
      ≠ (analyzeFieldMonitoringData 1
        { type := "ndvi", data_points := [], field_boundaries := [],
          date := some 0 }).next_monitoring_date := by
  show suggestNextMonitoringDate 0 "ndvi" ≠ suggestNextMonitoringDate 1 "ndvi"
  norm_num [suggestNextMonitoringDate, monitoringInterval, List.lookup]

end Agritech
